import Mathlib

/-!
Verification of the TG-PosterBot orchestration flow (`src/bot.py`).

The script is a Telegram bot with four handlers: `start`, `search_media`,
`button_callback` and `send_poster`.  We embed each handler as a pure Lean
function.  External effects are made explicit:

* outbound Telegram messages become an `OutMsg` list,
* calls to the TMDB metadata provider become counters (`searchCalls`,
  `detailCalls`) together with an `Except`-valued provider response passed
  in as an argument,
* `logger.error` calls become a `LogEntry` list,
* the success or failure of the one fallible transport call
  (`bot.send_photo`) becomes a boolean argument `photoOk`,
* a Python exception escaping the handler (to the bot's generic error
  handler) becomes `Except.error ()`.

Provider JSON objects are dictionaries in Python; we model the fields the
script reads as `Option`-valued record fields, `dict.get` with a default as
`Option.getD`, and `dict[key]` indexing (which raises `KeyError`) as an
`Except`-valued lookup.
-/

set_option autoImplicit false

namespace PosterBot

/-- One provider JSON record, restricted to the keys `bot.py` reads.
Every field is optional, mirroring Python dictionary access. -/
structure MediaEntry where
  media_type : Option String
  id : Option Int
  title : Option String
  name : Option String
  release_date : Option String
  first_air_date : Option String
  overview : Option String
  poster_path : Option String
deriving Repr, DecidableEq, Inhabited

/-- A user-visible outbound Telegram message. -/
inductive OutMsg where
  /-- `reply_text` / `send_message` with no keyboard. -/
  | text (body : String) : OutMsg
  /-- `reply_text` with an inline keyboard: list of (label, callback_data). -/
  | textWithButtons (body : String) (buttons : List (String × String)) : OutMsg
  /-- `send_photo` with a caption. -/
  | photo (url : String) (caption : String) : OutMsg
deriving Repr, DecidableEq

/-- A `logger.error` call site. -/
inductive LogEntry where
  | errorFetchingData : LogEntry
  | errorFetchingDetails : LogEntry
  | errorSendingPoster : LogEntry
deriving Repr, DecidableEq

/-- The observable effects of one handler invocation. -/
structure Effects where
  messages : List OutMsg
  searchCalls : Nat
  detailCalls : Nat
  logs : List LogEntry
deriving Repr, DecidableEq

/-- `TMDB_IMAGE_BASE_URL` from `bot.py`. -/
def TMDB_IMAGE_BASE_URL : String := "https://image.tmdb.org/t/p/w500"

/-- Python string slicing `s[:n]` (by code point, as in Python). -/
def pySlice (s : String) (n : Nat) : String := ⟨s.data.take n⟩

/-- The characters stripped by Python `str.strip()` (ASCII whitespace). -/
def isPySpace (c : Char) : Bool :=
  c == ' ' || c == '\t' || c == '\n' || c == '\r' || c.toNat == 0x0B || c.toNat == 0x0C

/-- Python `str.strip()`. -/
def pyStrip (s : String) : String :=
  ⟨((s.data.dropWhile isPySpace).reverse.dropWhile isPySpace).reverse⟩

/-- Python truthiness of `dict.get(key)` for a string value:
`None` and the empty string are falsy. -/
def pyTruthy : Option String → Bool
  | none => false
  | some s => !s.isEmpty

/-- Python `dict[key]` for a string field: raises `KeyError` when absent. -/
def pyIndexS : Option String → Except Unit String
  | some s => Except.ok s
  | none => Except.error ()

/-- Python `dict[key]` for an integer field: raises `KeyError` when absent. -/
def pyIndexI : Option Int → Except Unit Int
  | some i => Except.ok i
  | none => Except.error ()

/-- Python `s.split(":")` on the character list of a string:
splits at every colon, keeping empty parts. -/
def pySplitColonAux : List Char → List Char → List (List Char)
  | [], acc => [acc.reverse]
  | c :: rest, acc =>
      if c == ':' then acc.reverse :: pySplitColonAux rest []
      else pySplitColonAux rest (c :: acc)

/-- Python `s.split(":")`. -/
def pySplitColon (s : String) : List String :=
  (pySplitColonAux s.data []).map (fun l => ⟨l⟩)

/-- Python tuple unpacking `a, b = parts`: raises `ValueError` unless
`parts` has exactly two elements. -/
def pyUnpack2 (parts : List String) : Option (String × String) :=
  match parts with
  | [a, b] => some (a, b)
  | _ => none

/-- The fixed denial reply sent to unauthorized users. -/
def denyMsg : String := "Sorry, you are not authorized to use this bot."

/-- Handler for the `/start` command (`start` in `bot.py`). -/
def start (auth : List Int) (user_id : Int) : Effects :=
  if user_id ∉ auth then
    ⟨[OutMsg.text denyMsg], 0, 0, []⟩
  else
    ⟨[OutMsg.text "Welcome! Send me the name of a movie, TV show, or series to get its poster."],
      0, 0, []⟩

/-- The filter in `search_media`:
`r.get("media_type") in ["movie", "tv"]`. -/
def eligibleB (r : MediaEntry) : Bool :=
  r.media_type == some "movie" || r.media_type == some "tv"

/-- `valid_results` in `search_media`:
`[r for r in results[:3] if r.get("media_type") in ["movie", "tv"]]`. -/
def validResults (results : List MediaEntry) : List MediaEntry :=
  (results.take 3).filter eligibleB

/-- The caption built in `send_poster`:
`f"**{title} ({release_date})**\n{overview}"` with the `dict.get`
defaults of `bot.py` lines 124-126. -/
def posterCaption (media : MediaEntry) : String :=
  let title := media.title.getD (media.name.getD "Unknown")
  let release_date := pySlice (media.release_date.getD (media.first_air_date.getD "N/A")) 4
  let overview := media.overview.getD "No description available."
  "**" ++ title ++ " (" ++ release_date ++ ")**" ++ "\n" ++ overview

/-- `send_poster` from `bot.py`: formats the caption and delivers exactly
one message.  `photoOk` models whether the `send_photo` transport call
succeeds; on failure the handler logs and sends the fallback text. -/
def send_poster (media : MediaEntry) (photoOk : Bool) : Effects :=
  let poster_path := media.poster_path
  let caption := posterCaption media
  if pyTruthy poster_path then
    let poster_url := TMDB_IMAGE_BASE_URL ++ poster_path.getD ""
    if photoOk then
      ⟨[OutMsg.photo poster_url (pySlice caption 1024)], 0, 0, []⟩
    else
      ⟨[OutMsg.text (caption ++ "\n\nPoster unavailable due to an error.")], 0, 0,
        [LogEntry.errorSendingPoster]⟩
  else
    ⟨[OutMsg.text (caption ++ "\n\nNo poster available for this media.")], 0, 0, []⟩

/-- One inline keyboard button built in `search_media`'s multi-result
branch: the label `f"{r[key]} ({year})"` and the payload
`f"{r['media_type']}:{r['id']}"`.  Uses `dict[key]` indexing, so it can
raise `KeyError`. -/
def entryButton (r : MediaEntry) : Except Unit (String × String) :=
  match pyIndexS r.media_type with
  | Except.error e => Except.error e
  | Except.ok mt =>
    match pyIndexS (if mt == "movie" then r.title else r.name) with
    | Except.error e => Except.error e
    | Except.ok t =>
      match pyIndexI r.id with
      | Except.error e => Except.error e
      | Except.ok i =>
          Except.ok
            (t ++ " (" ++ pySlice (r.release_date.getD (r.first_air_date.getD "")) 4 ++ ")",
              mt ++ ":" ++ toString i)

/-- Handler for free-text queries (`search_media` in `bot.py`).
`provider` is the outcome of the TMDB multi-search HTTP call:
`Except.error` for a `requests.RequestException` (network failure or
`raise_for_status`), `Except.ok results` for a parsed `results` list.
`Except.error ()` as the handler result is an exception escaping to the
bot's generic error handler. -/
def search_media (auth : List Int) (user_id : Int) (text : String)
    (provider : Except Unit (List MediaEntry)) (photoOk : Bool) :
    Except Unit Effects :=
  if user_id ∉ auth then
    Except.ok ⟨[OutMsg.text denyMsg], 0, 0, []⟩
  else
    let query := pyStrip text
    if query.isEmpty then
      Except.ok ⟨[OutMsg.text "Please provide a movie or TV show name."], 0, 0, []⟩
    else
      match provider with
      | Except.error _ =>
          Except.ok ⟨[OutMsg.text "An error occurred while fetching data. Please try again later."],
            1, 0, [LogEntry.errorFetchingData]⟩
      | Except.ok results =>
          if results.isEmpty then
            Except.ok ⟨[OutMsg.text "No results found for your query."], 1, 0, []⟩
          else
            let valid_results := validResults results
            if valid_results.isEmpty then
              Except.ok ⟨[OutMsg.text "No movies or TV shows found."], 1, 0, []⟩
            else if valid_results.length == 1 then
              let sp := send_poster (valid_results.headD default) photoOk
              Except.ok ⟨sp.messages, 1, 0, sp.logs⟩
            else
              match valid_results.mapM entryButton with
              | Except.error e => Except.error e
              | Except.ok keyboard =>
                  Except.ok
                    ⟨[OutMsg.textWithButtons "Multiple results found. Please select one:" keyboard],
                      1, 0, []⟩

/-- Handler for button presses (`button_callback` in `bot.py`).
`payload` is `query.data`; `provider` is the outcome of the TMDB detail
HTTP call for the selected media. -/
def button_callback (auth : List Int) (user_id : Int) (payload : String)
    (provider : Except Unit MediaEntry) (photoOk : Bool) :
    Except Unit Effects :=
  if user_id ∉ auth then
    Except.ok ⟨[OutMsg.text denyMsg], 0, 0, []⟩
  else
    match pyUnpack2 (pySplitColon payload) with
    | none => Except.error ()
    | some (_media_type, _media_id) =>
        match provider with
        | Except.error _ =>
            Except.ok
              ⟨[OutMsg.text "An error occurred while fetching details. Please try again later."],
                0, 1, [LogEntry.errorFetchingDetails]⟩
        | Except.ok media =>
            let sp := send_poster media photoOk
            Except.ok ⟨sp.messages, 0, 1, sp.logs⟩

/-- The total counterpart of `entryButton`, defined when all the indexed
keys are present (see `hasButtonFields`). -/
def entryButtonD (r : MediaEntry) : String × String :=
  ((if r.media_type.getD "" == "movie" then r.title.getD "" else r.name.getD "") ++ " (" ++
      pySlice (r.release_date.getD (r.first_air_date.getD "")) 4 ++ ")",
    r.media_type.getD "" ++ ":" ++ toString (r.id.getD 0))

/-- All the keys indexed by `entryButton` are present, so building the
button cannot raise `KeyError`. -/
def hasButtonFields (r : MediaEntry) : Bool :=
  r.media_type.isSome && r.id.isSome &&
    (if r.media_type.getD "" == "movie" then r.title.isSome else r.name.isSome)

/-! ### Concrete provider records used as test inputs -/

/-- A sample movie entry with a poster. -/
def mMovieA : MediaEntry :=
  { media_type := some "movie", id := some 3, title := some "A", name := none,
    release_date := some "2020-05-01", first_air_date := none,
    overview := some "An overview.", poster_path := some "/a.jpg" }

/-- A second sample movie entry. -/
def mMovieB : MediaEntry :=
  { media_type := some "movie", id := some 4, title := some "B", name := none,
    release_date := some "2021-06-02", first_air_date := none,
    overview := some "Another overview.", poster_path := some "/b.jpg" }

/-- A sample TV entry. -/
def mTvC : MediaEntry :=
  { media_type := some "tv", id := some 5, title := none, name := some "C",
    release_date := none, first_air_date := some "2019-01-02",
    overview := some "A show.", poster_path := some "/c.jpg" }

/-- A sample person entry (not eligible). -/
def mPersonP : MediaEntry :=
  { media_type := some "person", id := some 10, title := none, name := some "P",
    release_date := none, first_air_date := none, overview := none, poster_path := none }

/-- A second sample person entry (not eligible). -/
def mPersonQ : MediaEntry :=
  { media_type := some "person", id := some 11, title := none, name := some "Q",
    release_date := none, first_air_date := none, overview := none, poster_path := none }

/-- A 1100-character overview used to exercise the caption length bound. -/
def overviewLong : String := ⟨List.replicate 1100 'a'⟩

/-- A movie entry with no poster and a 1100-character overview. -/
def mLong : MediaEntry :=
  { media_type := some "movie", id := some 7, title := some "T", name := none,
    release_date := some "2020-05-01", first_air_date := none,
    overview := some overviewLong, poster_path := none }

/-- A raw provider result list whose eligible entries number 3, but of
whose first three entries only one is eligible. -/
def cexResults : List MediaEntry := [mPersonP, mPersonQ, mMovieA, mMovieB, mTvC]

/-! ### Helper lemmas -/

theorem pySlice_length_le (s : String) (n : Nat) : (pySlice s n).length ≤ n :=
  List.length_take_le n s.data

theorem pyStrip_blank (s : String) (h : ∀ c ∈ s.data, isPySpace c = true) :
    (pyStrip s).isEmpty = true := by
  have hd : s.data.dropWhile isPySpace = [] := List.dropWhile_eq_nil_iff.mpr h
  simp [pyStrip, hd, String.isEmpty]

theorem digitChar_big (n : Nat) : Nat.digitChar (n + 16) = '*' := rfl

theorem digitChar_ne_colon (d : Nat) : (Nat.digitChar d == ':') = false := by
  rcases Nat.lt_or_ge d 16 with h | h
  · interval_cases d <;> decide
  · have he : d = (d - 16) + 16 := by omega
    rw [he, digitChar_big]
    decide

theorem toDigitsCore_ne_colon (b : Nat) :
    ∀ (fuel n : Nat) (ds : List Char), (∀ c ∈ ds, (c == ':') = false) →
      ∀ c ∈ Nat.toDigitsCore b fuel n ds, (c == ':') = false
  | 0, _, _, h => by
      intro c hc
      exact h c hc
  | fuel + 1, n, ds, h => by
      intro c hc
      simp only [Nat.toDigitsCore] at hc
      have hcons : ∀ c ∈ Nat.digitChar (n % b) :: ds, (c == ':') = false := by
        intro d hd
        rcases List.mem_cons.mp hd with rfl | hd
        · exact digitChar_ne_colon _
        · exact h d hd
      split at hc
      · exact hcons c hc
      · exact toDigitsCore_ne_colon b fuel (n / b) _ hcons c hc

theorem natRepr_ne_colon (n : Nat) : ∀ c ∈ (Nat.repr n).data, (c == ':') = false := by
  intro c hc
  exact toDigitsCore_ne_colon 10 (n + 1) n [] (by intro d hd; cases hd) c hc

theorem toString_int_ne_colon (i : Int) : ∀ c ∈ (toString i).data, (c == ':') = false := by
  cases i with
  | ofNat m => exact natRepr_ne_colon m
  | negSucc m =>
      intro c hc
      have hd : (toString (Int.negSucc m)).data = '-' :: (Nat.repr (m + 1)).data := rfl
      rw [hd] at hc
      rcases List.mem_cons.mp hc with rfl | hc
      · decide
      · exact natRepr_ne_colon _ c hc

theorem pySplitColonAux_no_colon :
    ∀ (l acc : List Char), (∀ c ∈ l, (c == ':') = false) →
      pySplitColonAux l acc = [acc.reverse ++ l]
  | [], acc, _ => by simp [pySplitColonAux]
  | c :: rest, acc, h => by
      have hc : (c == ':') = false := h c (List.mem_cons_self c rest)
      rw [pySplitColonAux, if_neg (by simp [hc]),
        pySplitColonAux_no_colon rest (c :: acc) (fun d hd => h d (List.mem_cons_of_mem _ hd))]
      simp

theorem pySplitColonAux_colon_split :
    ∀ (a acc b : List Char), (∀ c ∈ a, (c == ':') = false) →
      pySplitColonAux (a ++ ':' :: b) acc = (acc.reverse ++ a) :: pySplitColonAux b []
  | [], acc, b, _ => by
      rw [List.nil_append, pySplitColonAux, if_pos (by simp)]
      simp
  | c :: rest, acc, b, h => by
      have hc : (c == ':') = false := h c (List.mem_cons_self c rest)
      rw [List.cons_append, pySplitColonAux, if_neg (by simp [hc]),
        pySplitColonAux_colon_split rest (c :: acc) b
          (fun d hd => h d (List.mem_cons_of_mem _ hd))]
      simp

theorem pySplitColonAux_length :
    ∀ (l acc : List Char), (pySplitColonAux l acc).length = l.count ':' + 1
  | [], _ => by simp [pySplitColonAux]
  | c :: rest, acc => by
      by_cases hc : c = ':'
      · subst hc
        rw [pySplitColonAux, if_pos (by simp)]
        simp [pySplitColonAux_length rest [], List.count_cons]
      · rw [pySplitColonAux, if_neg (by simp [hc]),
          pySplitColonAux_length rest (c :: acc)]
        simp [List.count_cons, hc]

theorem count_colon_one_split :
    ∀ (l : List Char), l.count ':' = 1 →
      ∃ a b, l = a ++ ':' :: b ∧ (∀ c ∈ a, (c == ':') = false) ∧
        (∀ c ∈ b, (c == ':') = false)
  | [], h => by simp at h
  | c :: rest, h => by
      by_cases hc : c = ':'
      · subst hc
        have hz : rest.count ':' = 0 := by simpa [List.count_cons] using h
        have hmem : ':' ∉ rest := List.count_eq_zero.mp hz
        refine ⟨[], rest, rfl, by simp, ?_⟩
        intro d hd
        exact beq_eq_false_iff_ne.mpr (fun e => hmem (e ▸ hd))
      · have hr : rest.count ':' = 1 := by simpa [List.count_cons, hc] using h
        obtain ⟨a, b, he, ha, hb⟩ := count_colon_one_split rest hr
        refine ⟨c :: a, b, by rw [he, List.cons_append], ?_, hb⟩
        intro d hd
        rcases List.mem_cons.mp hd with rfl | hd
        · exact beq_eq_false_iff_ne.mpr hc
        · exact ha d hd

theorem pySplitColon_length (s : String) :
    (pySplitColon s).length = s.data.count ':' + 1 := by
  simp [pySplitColon, pySplitColonAux_length]

theorem pyUnpack2_none_of_length_ne_two (parts : List String) (h : parts.length ≠ 2) :
    pyUnpack2 parts = none := by
  rcases parts with _ | ⟨a, _ | ⟨b, _ | ⟨c, rest⟩⟩⟩ <;> simp [pyUnpack2] at h ⊢

theorem pySplitColon_one_colon (s : String) (h : s.data.count ':' = 1) :
    ∃ a b : List Char, s.data = a ++ ':' :: b ∧
      pyUnpack2 (pySplitColon s) = some (⟨a⟩, ⟨b⟩) := by
  obtain ⟨a, b, he, ha, hb⟩ := count_colon_one_split s.data h
  refine ⟨a, b, he, ?_⟩
  unfold pySplitColon
  rw [he, pySplitColonAux_colon_split a [] b ha, pySplitColonAux_no_colon b [] hb]
  simp [pyUnpack2]

theorem token_roundtrip (mt : String) (i : Int)
    (hmt : ∀ c ∈ mt.data, (c == ':') = false) :
    pyUnpack2 (pySplitColon (mt ++ ":" ++ toString i)) = some (mt, toString i) := by
  have hd : (mt ++ ":" ++ toString i).data = mt.data ++ ':' :: (toString i).data := by
    simp
  unfold pySplitColon
  rw [hd, pySplitColonAux_colon_split mt.data [] _ hmt,
    pySplitColonAux_no_colon _ [] (toString_int_ne_colon i)]
  simp [pyUnpack2]

/-! ### Claim theorems -/

/-- Claim C1: for every user id not in the authorized set, each of the
three entry points (`start`, `search_media`, `button_callback`) replies
with the fixed denial message and performs zero provider calls. -/
theorem unauthorized_all_denied (auth : List Int) (uid : Int) (text payload : String)
    (sp : Except Unit (List MediaEntry)) (dp : Except Unit MediaEntry) (ok1 ok2 : Bool)
    (h : uid ∉ auth) :
    start auth uid = ⟨[OutMsg.text denyMsg], 0, 0, []⟩ ∧
    search_media auth uid text sp ok1 = Except.ok ⟨[OutMsg.text denyMsg], 0, 0, []⟩ ∧
    button_callback auth uid payload dp ok2 = Except.ok ⟨[OutMsg.text denyMsg], 0, 0, []⟩ := by
  refine ⟨?_, ?_, ?_⟩ <;> simp [start, search_media, button_callback, h]

/-- Witness for C1: the concrete user 99 is denied at all entry points. -/
theorem unauthorized_all_denied_witness :
    start [1, 2] 99 = ⟨[OutMsg.text denyMsg], 0, 0, []⟩ ∧
    search_media [1, 2] 99 "batman" (Except.ok []) true =
      Except.ok ⟨[OutMsg.text denyMsg], 0, 0, []⟩ ∧
    button_callback [1, 2] 99 "movie:3" (Except.ok mMovieA) true =
      Except.ok ⟨[OutMsg.text denyMsg], 0, 0, []⟩ :=
  unauthorized_all_denied [1, 2] 99 "batman" "movie:3" (Except.ok []) (Except.ok mMovieA)
    true true (by decide)

/-- Claim C4: the candidate list equals the first 3 raw results filtered
to movie/tv entries (truncation before the filter); it is a sublist of the
first 3 raw results and of the raw list (provider order preserved, no
re-sorting), and every member is eligible. -/
theorem validResults_take_then_filter (results : List MediaEntry) :
    validResults results = (results.take 3).filter eligibleB ∧
    (validResults results).Sublist (results.take 3) ∧
    (validResults results).Sublist results ∧
    ∀ r ∈ validResults results, eligibleB r = true := by
  refine ⟨rfl, List.filter_sublist _, (List.filter_sublist _).trans (List.take_sublist _ _), ?_⟩
  intro r hr
  exact List.of_mem_filter hr

/-- Witness for C4 at a concrete result list. -/
theorem validResults_take_then_filter_witness : eligibleB mMovieA = true :=
  (validResults_take_then_filter cexResults).2.2.2 mMovieA (by decide)

/-- Claim C9: for an authorized user, a blank or whitespace-only message
text gets the empty-query prompt and no provider call is made. -/
theorem blank_query_prompt (auth : List Int) (uid : Int) (text : String)
    (sp : Except Unit (List MediaEntry)) (ok : Bool)
    (hauth : uid ∈ auth) (hblank : ∀ c ∈ text.data, isPySpace c = true) :
    search_media auth uid text sp ok =
      Except.ok ⟨[OutMsg.text "Please provide a movie or TV show name."], 0, 0, []⟩ := by
  have hq : (pyStrip text).isEmpty = true := pyStrip_blank text hblank
  simp [search_media, hauth, hq]

/-- Witness for C9 at a concrete whitespace-only text. -/
theorem blank_query_prompt_witness :
    search_media [1, 2] 1 " \t  " (Except.ok [mMovieA]) true =
      Except.ok ⟨[OutMsg.text "Please provide a movie or TV show name."], 0, 0, []⟩ :=
  blank_query_prompt [1, 2] 1 " \t  " (Except.ok [mMovieA]) true (by decide) (by decide)

/-- Claim C7: an empty raw result list and a non-empty raw list with an
empty post-filter candidate list are non-error outcomes with two distinct
messages, and neither message is the provider-error message. -/
theorem zero_results_distinct (auth : List Int) (uid : Int) (text : String)
    (results : List MediaEntry) (ok : Bool)
    (hauth : uid ∈ auth) (hq : (pyStrip text).isEmpty = false) :
    (results = [] →
      search_media auth uid text (Except.ok results) ok =
        Except.ok ⟨[OutMsg.text "No results found for your query."], 1, 0, []⟩) ∧
    (results ≠ [] → validResults results = [] →
      search_media auth uid text (Except.ok results) ok =
        Except.ok ⟨[OutMsg.text "No movies or TV shows found."], 1, 0, []⟩) ∧
    "No results found for your query." ≠ "No movies or TV shows found." ∧
    "No results found for your query." ≠
      "An error occurred while fetching data. Please try again later." ∧
    "No movies or TV shows found." ≠
      "An error occurred while fetching data. Please try again later." := by
  refine ⟨?_, ?_, by decide, by decide, by decide⟩
  · intro he
    subst he
    simp [search_media, hauth, hq]
  · intro hne hv
    have h1 : results.isEmpty = false := by
      cases results with
      | nil => exact absurd rfl hne
      | cons a l => rfl
    simp [search_media, hauth, hq, h1, hv]

/-- Witness for C7 at the empty raw result list. -/
theorem zero_results_distinct_witness :
    search_media [1, 2] 1 "batman" (Except.ok ([] : List MediaEntry)) true =
      Except.ok ⟨[OutMsg.text "No results found for your query."], 1, 0, []⟩ :=
  (zero_results_distinct [1, 2] 1 "batman" [] true (by decide) (by decide)).1 rfl

/-- Claim C5: the poster renderer sends exactly one user-visible message
in every case: a photo when the poster is present and the send succeeds,
the logged "poster unavailable" fallback text replacing it when the send
fails, and the "no poster" text when the poster is absent. -/
theorem sendPoster_exactly_one_message (m : MediaEntry) (ok : Bool) :
    (send_poster m ok).messages.length = 1 ∧
    (pyTruthy m.poster_path = true → ok = true →
      send_poster m ok =
        ⟨[OutMsg.photo (TMDB_IMAGE_BASE_URL ++ m.poster_path.getD "")
            (pySlice (posterCaption m) 1024)], 0, 0, []⟩) ∧
    (pyTruthy m.poster_path = true → ok = false →
      send_poster m ok =
        ⟨[OutMsg.text (posterCaption m ++ "\n\nPoster unavailable due to an error.")], 0, 0,
          [LogEntry.errorSendingPoster]⟩) ∧
    (pyTruthy m.poster_path = false →
      send_poster m ok =
        ⟨[OutMsg.text (posterCaption m ++ "\n\nNo poster available for this media.")],
          0, 0, []⟩) := by
  unfold send_poster
  by_cases hp : pyTruthy m.poster_path <;> cases ok <;> simp [hp]

/-- Witness for C5: the fallback text replaces the failed photo send. -/
theorem sendPoster_exactly_one_message_witness :
    send_poster mMovieA false =
      ⟨[OutMsg.text (posterCaption mMovieA ++ "\n\nPoster unavailable due to an error.")], 0, 0,
        [LogEntry.errorSendingPoster]⟩ :=
  (sendPoster_exactly_one_message mMovieA false).2.2.1 (by decide) rfl

set_option maxRecDepth 16384 in
/-- Claim C2 counterexample: with a 1100-character overview and no
poster, the single message the renderer sends carries a caption text
longer than 1024 characters, so the length bound fails on the no-poster
path. -/
theorem caption_bound_counterexample :
    (send_poster mLong true).messages =
      [OutMsg.text (posterCaption mLong ++ "\n\nNo poster available for this media.")] ∧
    1024 < (posterCaption mLong ++ "\n\nNo poster available for this media.").length := by
  exact ⟨rfl, by decide⟩

/-- Claim C2 amended: the caption attached to a photo message is
truncated to at most 1024 characters (only the image path truncates; the
fallback and no-poster text paths carry the untruncated caption). -/
theorem photo_caption_le_1024 (m : MediaEntry) (ok : Bool) (url cap : String)
    (h : OutMsg.photo url cap ∈ (send_poster m ok).messages) : cap.length ≤ 1024 := by
  unfold send_poster at h
  by_cases hp : pyTruthy m.poster_path
  · cases ok
    · simp [hp] at h
    · simp [hp] at h
      obtain ⟨-, rfl⟩ := h
      exact pySlice_length_le _ _
  · simp [hp] at h

/-- Witness for the amended C2 at a concrete photo message. -/
theorem photo_caption_le_1024_witness :
    (pySlice (posterCaption mMovieA) 1024).length ≤ 1024 :=
  photo_caption_le_1024 mMovieA true (TMDB_IMAGE_BASE_URL ++ "/a.jpg")
    (pySlice (posterCaption mMovieA) 1024) (by decide)

/-- Claim C8: when the filtered candidate list is exactly one record, the
handler renders that search record itself: the renderer's messages, one
search call, zero detail fetches, and no disambiguation message. -/
theorem single_candidate_direct (auth : List Int) (uid : Int) (text : String)
    (results : List MediaEntry) (r : MediaEntry) (ok : Bool)
    (hauth : uid ∈ auth) (hq : (pyStrip text).isEmpty = false)
    (hone : validResults results = [r]) :
    search_media auth uid text (Except.ok results) ok =
      Except.ok ⟨(send_poster r ok).messages, 1, 0, (send_poster r ok).logs⟩ ∧
    ∀ body kb, OutMsg.textWithButtons body kb ∉ (send_poster r ok).messages := by
  have hres : results.isEmpty = false := by
    cases results with
    | nil => simp [validResults] at hone
    | cons a l => rfl
  constructor
  · simp [search_media, hauth, hq, hres, hone]
  · intro body kb hmem
    unfold send_poster at hmem
    by_cases hp : pyTruthy r.poster_path <;> cases ok <;> simp [hp] at hmem

/-- Witness for C8: one movie among persons renders directly. -/
theorem single_candidate_direct_witness :
    search_media [1, 2] 1 "batman" (Except.ok cexResults) true =
      Except.ok ⟨(send_poster mMovieA true).messages, 1, 0, (send_poster mMovieA true).logs⟩ :=
  (single_candidate_direct [1, 2] 1 "batman" cexResults mMovieA true (by decide) (by decide)
    (by decide)).1

/-- Whether a message is a disambiguation (inline-keyboard) message. -/
def isButtonsMsg : OutMsg → Bool
  | OutMsg.textWithButtons _ _ => true
  | _ => false

theorem entryButton_ok (r : MediaEntry) (h : hasButtonFields r = true) :
    entryButton r = Except.ok (entryButtonD r) := by
  simp only [hasButtonFields, Bool.and_eq_true] at h
  obtain ⟨⟨hmt, hid⟩, hkey⟩ := h
  cases hm : r.media_type with
  | none => rw [hm] at hmt; simp at hmt
  | some mt =>
    cases hi : r.id with
    | none => rw [hi] at hid; simp at hid
    | some i =>
      rw [hm] at hkey
      simp only [Option.getD_some] at hkey
      cases hmm : (mt == "movie") with
      | true =>
        simp only [hmm, if_true] at hkey
        cases ht : r.title with
        | none => rw [ht] at hkey; simp at hkey
        | some t => simp [entryButton, entryButtonD, pyIndexS, pyIndexI, hm, hi, ht, hmm]
      | false =>
        simp only [hmm, Bool.false_eq_true, if_false] at hkey
        cases hn : r.name with
        | none => rw [hn] at hkey; simp at hkey
        | some t => simp [entryButton, entryButtonD, pyIndexS, pyIndexI, hm, hi, hn, hmm]

theorem mapM_loop_entryButton :
    ∀ (l : List MediaEntry) (acc : List (String × String)),
      (∀ r ∈ l, hasButtonFields r = true) →
      List.mapM.loop entryButton l acc = Except.ok (acc.reverse ++ l.map entryButtonD)
  | [], acc, _ => by
      rw [List.mapM.loop]
      show Except.ok acc.reverse = _
      simp
  | a :: l, acc, h => by
      rw [List.mapM.loop, entryButton_ok a (h a (List.mem_cons_self a l))]
      show List.mapM.loop entryButton l (entryButtonD a :: acc) = _
      rw [mapM_loop_entryButton l (entryButtonD a :: acc)
        (fun r hr => h r (List.mem_cons_of_mem _ hr))]
      simp

theorem mapM_entryButton (l : List MediaEntry)
    (h : ∀ r ∈ l, hasButtonFields r = true) :
    l.mapM entryButton = Except.ok (l.map entryButtonD) := by
  show List.mapM.loop entryButton l [] = _
  rw [mapM_loop_entryButton l [] h]
  simp

/-- Claim C3 counterexample: this provider response contains exactly 3
eligible entries, yet the handler sends a single direct photo render and
no disambiguation message carrying min(3, 3) = 3 options, because the
truncation to 3 happens before the eligibility filter. -/
theorem disambig_counterexample :
    (cexResults.filter eligibleB).length = 3 ∧
    search_media [1, 2] 1 "batman" (Except.ok cexResults) true =
      Except.ok ⟨[OutMsg.photo (TMDB_IMAGE_BASE_URL ++ "/a.jpg")
          (pySlice (posterCaption mMovieA) 1024)], 1, 0, []⟩ ∧
    (search_media [1, 2] 1 "batman" (Except.ok cexResults) true).toOption.map
        (fun eff => eff.messages.any isButtonsMsg) = some false := by
  refine ⟨by decide, rfl, rfl⟩

/-- Claim C3 amended: when at least 2 of the first 3 raw results are
eligible (and the fields the button builder indexes are present), the
handler sends one disambiguation message whose option count equals the
eligible count among the first 3 raw results — which equals
min(3, that count) — each option labeled "{title} ({year})" and carrying
a payload that splits back to the candidate's media_type and id string. -/
theorem disambig_options (auth : List Int) (uid : Int) (text : String)
    (results : List MediaEntry) (ok : Bool)
    (hauth : uid ∈ auth) (hq : (pyStrip text).isEmpty = false)
    (h2 : 2 ≤ (validResults results).length)
    (hf : ∀ r ∈ validResults results, hasButtonFields r = true) :
    search_media auth uid text (Except.ok results) ok =
      Except.ok ⟨[OutMsg.textWithButtons "Multiple results found. Please select one:"
          ((validResults results).map entryButtonD)], 1, 0, []⟩ ∧
    ((validResults results).map entryButtonD).length = min 3 ((validResults results).length) ∧
    ∀ r ∈ validResults results,
      pyUnpack2 (pySplitColon (entryButtonD r).2) =
        some (r.media_type.getD "", toString (r.id.getD 0)) := by
  have hlen3 : (validResults results).length ≤ 3 := by
    calc (validResults results).length ≤ (results.take 3).length :=
          List.length_filter_le _ _
      _ ≤ 3 := List.length_take_le 3 results
  have hres : results.isEmpty = false := by
    cases results with
    | nil => simp [validResults] at h2
    | cons a l => rfl
  have hvne : (validResults results).isEmpty = false := by
    cases hv : validResults results with
    | nil => rw [hv] at h2; simp at h2
    | cons a l => rfl
  have hone : ((validResults results).length == 1) = false := by
    rw [beq_eq_false_iff_ne]
    omega
  have hmap : List.mapM.loop entryButton (validResults results) [] =
      Except.ok ((validResults results).map entryButtonD) := by
    rw [mapM_loop_entryButton (validResults results) [] hf]
    simp
  refine ⟨?_, ?_, ?_⟩
  · simp [search_media, hauth, hq, hres, hvne, hone, hmap, mapM_entryButton _ hf]
  · rw [List.length_map, Nat.min_eq_right hlen3]
  · intro r hr
    have he : eligibleB r = true := List.of_mem_filter hr
    have hcases : r.media_type = some "movie" ∨ r.media_type = some "tv" := by
      simpa [eligibleB, Bool.or_eq_true, beq_iff_eq] using he
    simp only [entryButtonD]
    apply token_roundtrip
    rcases hcases with h1 | h1 <;> rw [h1] <;> decide

/-- Sample result list with three eligible entries among the first 3. -/
def exResults3 : List MediaEntry := [mMovieA, mMovieB, mTvC]

/-- Witness for the amended C3 at a concrete 3-candidate response. -/
theorem disambig_options_witness :
    search_media [1, 2] 1 "batman" (Except.ok exResults3) true =
      Except.ok ⟨[OutMsg.textWithButtons "Multiple results found. Please select one:"
          ((validResults exResults3).map entryButtonD)], 1, 0, []⟩ :=
  (disambig_options [1, 2] 1 "batman" exResults3 true (by decide) (by decide) (by decide)
    (by decide)).1

/-- Claim C6: a provider fault during the search call or the detail call
is handled with exactly one generic try-again message and a log entry; no
render happens and the fault does not escape the handler. -/
theorem provider_fault_handled (auth : List Int) (uid : Int) (text payload : String)
    (ok1 ok2 : Bool)
    (hauth : uid ∈ auth) (hq : (pyStrip text).isEmpty = false)
    (hpay : payload.data.count ':' = 1) :
    search_media auth uid text (Except.error ()) ok1 =
      Except.ok ⟨[OutMsg.text "An error occurred while fetching data. Please try again later."],
        1, 0, [LogEntry.errorFetchingData]⟩ ∧
    button_callback auth uid payload (Except.error ()) ok2 =
      Except.ok
        ⟨[OutMsg.text "An error occurred while fetching details. Please try again later."],
          0, 1, [LogEntry.errorFetchingDetails]⟩ := by
  constructor
  · simp [search_media, hauth, hq]
  · obtain ⟨a, b, -, hu⟩ := pySplitColon_one_colon payload hpay
    simp [button_callback, hauth, hu]

/-- Witness for C6 at concrete faulting provider calls. -/
theorem provider_fault_handled_witness :
    search_media [1, 2] 1 "batman" (Except.error ()) true =
      Except.ok ⟨[OutMsg.text "An error occurred while fetching data. Please try again later."],
        1, 0, [LogEntry.errorFetchingData]⟩ ∧
    button_callback [1, 2] 1 "movie:3" (Except.error ()) true =
      Except.ok
        ⟨[OutMsg.text "An error occurred while fetching details. Please try again later."],
          0, 1, [LogEntry.errorFetchingDetails]⟩ :=
  provider_fault_handled [1, 2] 1 "batman" "movie:3" true true (by decide) (by decide)
    (by decide)

/-- Claim C10: the callback payload is destructured by splitting on ":"
into exactly two parts: with exactly one colon the unpacking succeeds and
recovers the parts around the colon (in particular every bot-built token
`media_type:id` round-trips), and with any other colon count the
unpacking raises, so the handler replies with nothing and the fault
escapes to the generic error handler. -/
theorem callback_payload_split (auth : List Int) (uid : Int) (payload : String)
    (provider : Except Unit MediaEntry) (ok : Bool) (hauth : uid ∈ auth) :
    (payload.data.count ':' = 1 →
      ∃ a b : List Char, payload.data = a ++ ':' :: b ∧
        pyUnpack2 (pySplitColon payload) = some (⟨a⟩, ⟨b⟩)) ∧
    (∀ (mt : String) (i : Int), mt = "movie" ∨ mt = "tv" →
      pyUnpack2 (pySplitColon (mt ++ ":" ++ toString i)) = some (mt, toString i)) ∧
    (payload.data.count ':' ≠ 1 →
      button_callback auth uid payload provider ok = Except.error ()) := by
  refine ⟨pySplitColon_one_colon payload, ?_, ?_⟩
  · intro mt i hmt
    apply token_roundtrip
    rcases hmt with rfl | rfl <;> decide
  · intro hne
    have hlen : (pySplitColon payload).length ≠ 2 := by
      rw [pySplitColon_length]
      omega
    have hu : pyUnpack2 (pySplitColon payload) = none :=
      pyUnpack2_none_of_length_ne_two _ hlen
    simp [button_callback, hauth, hu]

/-- Witness for C10: a two-colon payload escapes as a fault, and a
bot-built token round-trips. -/
theorem callback_payload_split_witness :
    button_callback [1, 2] 1 "a:b:c" (Except.ok mMovieA) true = Except.error () ∧
    pyUnpack2 (pySplitColon ("movie" ++ ":" ++ toString (3 : Int))) =
      some ("movie", toString (3 : Int)) :=
  ⟨(callback_payload_split [1, 2] 1 "a:b:c" (Except.ok mMovieA) true (by decide)).2.2
      (by decide),
    (callback_payload_split [1, 2] 1 "a:b:c" (Except.ok mMovieA) true (by decide)).2.1
      "movie" 3 (Or.inl rfl)⟩

end PosterBot
